import Mathlib

deriving instance DecidableEq for Except

/-!
Verification of the book-tracker backend: the reading-streak state machine
(`backend/database.py`), the account store (`register_user`), the favorites
ledger (`backend/json_storage.py`), and the catalog lookup
(`backend/google_books_api.py`), shallowly embedded in Lean 4.

Dates are modelled as integers counting days, so `today - timedelta(days=1)`
becomes `today - 1`.  Per-user persisted rows and the JSON ledger are modelled
explicitly; SQLite `UPDATE ... WHERE id = ?` on a missing row matches zero
rows, which the embedding renders as the stored state staying `none`.
-/

namespace BookApp

/-! ## Streak engine (backend/database.py, `update_reading_streak`) -/

/-- The streak-relevant columns of one row of the `users` table. -/
structure StreakRow where
  last_read_date : Option Int
  current_streak : Int
  longest_streak : Int
deriving DecidableEq, Repr

/-- The dictionary returned by `update_reading_streak`. -/
structure StreakResult where
  current_streak : Int
  longest_streak : Int
  last_read_date : Option Int
  streak_status : String
deriving DecidableEq, Repr

/-- Embedding of `update_reading_streak(user_id)`.  The database row for the
user (or `none` when the `SELECT` returns no row) and `datetime.now().date()`
are passed explicitly.  Returns the result dictionary together with the row
stored by the `UPDATE`; when no row exists the `UPDATE ... WHERE id = ?`
matches nothing, so the stored state stays `none`. -/
def update_reading_streak (stored : Option StreakRow) (today : Int) :
    StreakResult × Option StreakRow :=
  let last_read_date : Option Int :=
    match stored with
    | some r => r.last_read_date
    | none => none
  let current_streak0 : Int :=
    match stored with
    | some r => r.current_streak
    | none => 0
  let longest_streak0 : Int :=
    match stored with
    | some r => r.longest_streak
    | none => 0
  let updated : Int × String :=
    if last_read_date = some today then
      (current_streak0, "unchanged")
    else if last_read_date = some (today - 1) then
      (current_streak0 + 1, "continued")
    else
      (1, "reset")
  let longest_streak : Int :=
    if updated.1 > longest_streak0 then updated.1 else longest_streak0
  (⟨updated.1, longest_streak, some today, updated.2⟩,
   match stored with
   | some _ => some ⟨some today, updated.1, longest_streak⟩
   | none => none)

/-- The current streak of the stored row, with the `(None, 0, 0)` default the
code substitutes when the `SELECT` finds no row. -/
def storedCurrent (stored : Option StreakRow) : Int :=
  match stored with
  | some r => r.current_streak
  | none => 0

/-- The stored row after one `update_reading_streak` call. -/
def updStore (stored : Option StreakRow) (today : Int) : Option StreakRow :=
  (update_reading_streak stored today).2

/-- The stored row after a sequence of `update_reading_streak` calls, one per
listed day. -/
def runStreak (stored : Option StreakRow) (days : List Int) : Option StreakRow :=
  days.foldl updStore stored

/-! ### Streak theorems -/

/-- One `update_reading_streak` call when the stored row was last read today. -/
theorem upd_unchanged (r : StreakRow) (d : Int) (h : r.last_read_date = some d) :
    update_reading_streak (some r) d =
      (⟨r.current_streak, max r.longest_streak r.current_streak, some d, "unchanged"⟩,
       some ⟨some d, r.current_streak, max r.longest_streak r.current_streak⟩) := by
  simp only [update_reading_streak, h, if_pos, Int.max_def]
  split_ifs <;> simp_all <;> omega

/-- One `update_reading_streak` call when the stored row was last read
yesterday. -/
theorem upd_continued (r : StreakRow) (d : Int) (h : r.last_read_date = some (d - 1)) :
    update_reading_streak (some r) d =
      (⟨r.current_streak + 1, max r.longest_streak (r.current_streak + 1), some d, "continued"⟩,
       some ⟨some d, r.current_streak + 1, max r.longest_streak (r.current_streak + 1)⟩) := by
  have hne : r.last_read_date ≠ some d := by
    rw [h]; intro hc; injection hc with hc'; omega
  simp only [update_reading_streak, h, hne, Int.max_def]
  split_ifs <;> simp_all <;> omega

/-- One `update_reading_streak` call in the reset case: the stored row was
last read neither today nor yesterday. -/
theorem upd_reset (r : StreakRow) (d : Int) (h1 : r.last_read_date ≠ some d)
    (h2 : r.last_read_date ≠ some (d - 1)) :
    update_reading_streak (some r) d =
      (⟨1, max r.longest_streak 1, some d, "reset"⟩,
       some ⟨some d, 1, max r.longest_streak 1⟩) := by
  simp only [update_reading_streak, h1, h2, Int.max_def]
  split_ifs <;> simp_all <;> omega

/-- C1: for every stored row `(last_read_date, current_streak, longest_streak)`
and date `today`, `update_reading_streak` performs exactly the specified
transition: same day leaves the streak unchanged with status `"unchanged"`;
yesterday increments it with status `"continued"`; every other case (no prior
date, a gap of two or more days, or a future date) resets it to `1` with
status `"reset"`; afterwards the longest streak becomes the maximum of the
old longest streak and the new current streak, and the last-read date is set
to `today` both in the result and in the stored row. -/
theorem update_streak_transition (r : StreakRow) (today : Int) :
    (r.last_read_date = some today →
      (update_reading_streak (some r) today).1.current_streak = r.current_streak ∧
      (update_reading_streak (some r) today).1.streak_status = "unchanged") ∧
    (r.last_read_date = some (today - 1) →
      (update_reading_streak (some r) today).1.current_streak = r.current_streak + 1 ∧
      (update_reading_streak (some r) today).1.streak_status = "continued") ∧
    (r.last_read_date ≠ some today → r.last_read_date ≠ some (today - 1) →
      (update_reading_streak (some r) today).1.current_streak = 1 ∧
      (update_reading_streak (some r) today).1.streak_status = "reset") ∧
    (update_reading_streak (some r) today).1.longest_streak =
      max r.longest_streak (update_reading_streak (some r) today).1.current_streak ∧
    (update_reading_streak (some r) today).1.last_read_date = some today ∧
    (update_reading_streak (some r) today).2 =
      some ⟨some today, (update_reading_streak (some r) today).1.current_streak,
            (update_reading_streak (some r) today).1.longest_streak⟩ := by
  by_cases h1 : r.last_read_date = some today
  · rw [upd_unchanged r today h1]
    refine ⟨fun _ => ⟨rfl, rfl⟩, fun hb => ?_, fun hc _ => absurd h1 hc, rfl, rfl, rfl⟩
    exfalso; rw [h1] at hb; injection hb with hb'; omega
  · by_cases h2 : r.last_read_date = some (today - 1)
    · rw [upd_continued r today h2]
      exact ⟨fun ha => absurd ha h1, fun _ => ⟨rfl, rfl⟩, fun _ hd => absurd h2 hd, rfl, rfl, rfl⟩
    · rw [upd_reset r today h1 h2]
      exact ⟨fun ha => absurd ha h1, fun hb => absurd hb h2, fun _ _ => ⟨rfl, rfl⟩, rfl, rfl, rfl⟩

/-- Witness for C1 at a concrete input: last read yesterday (day 9, today
day 10) with streak 3 and longest 5 continues to streak 4. -/
theorem update_streak_transition_witness :
    (⟨some 9, 3, 5⟩ : StreakRow).last_read_date = some ((10 : Int) - 1) ∧
    (update_reading_streak (some ⟨some 9, 3, 5⟩) 10).1.current_streak = 3 + 1 ∧
    (update_reading_streak (some ⟨some 9, 3, 5⟩) 10).1.streak_status = "continued" :=
  ⟨by decide, ((update_streak_transition ⟨some 9, 3, 5⟩ 10).2.1 (by decide)).1,
   ((update_streak_transition ⟨some 9, 3, 5⟩ 10).2.1 (by decide)).2⟩

/-- One `update_reading_streak` call when the `SELECT` finds no row. -/
theorem upd_none (today : Int) :
    update_reading_streak none today = (⟨1, 1, some today, "reset"⟩, none) := by
  simp [update_reading_streak]

/-- C9: for a user id with no row in the `users` table, `update_reading_streak`
still returns `current_streak = 1`, `longest_streak = 1`,
`last_read_date = today` and status `"reset"`, while the persisted store is
left unchanged: the `UPDATE ... WHERE id = ?` matches zero rows, so no record
is created. -/
theorem update_streak_missing_user (today : Int) :
    update_reading_streak none today = (⟨1, 1, some today, "reset"⟩, none) :=
  upd_none today

/-- C5: after any `update_reading_streak` call whose stored current streak is
non-negative, the result satisfies `longest_streak ≥ current_streak` and both
streaks are non-negative; the row written back satisfies the same invariant
and again has a non-negative current streak, so the invariant is preserved by
every subsequent call. -/
theorem streak_invariant (stored : Option StreakRow) (today : Int)
    (hcs : 0 ≤ storedCurrent stored) :
    (update_reading_streak stored today).1.current_streak ≤
      (update_reading_streak stored today).1.longest_streak ∧
    0 ≤ (update_reading_streak stored today).1.current_streak ∧
    0 ≤ (update_reading_streak stored today).1.longest_streak ∧
    ∀ r', (update_reading_streak stored today).2 = some r' →
      r'.current_streak ≤ r'.longest_streak ∧ 0 ≤ r'.current_streak ∧
      0 ≤ r'.longest_streak ∧ 0 ≤ storedCurrent (some r') := by
  match stored with
  | none =>
    rw [upd_none]
    refine ⟨by norm_num, by norm_num, by norm_num, fun r' h => by simp at h⟩
  | some r =>
    simp only [storedCurrent] at hcs
    by_cases h1 : r.last_read_date = some today
    · rw [upd_unchanged r today h1]
      refine ⟨le_max_right _ _, hcs, le_trans hcs (le_max_right _ _), fun r' h => ?_⟩
      injection h with h'; subst h'
      exact ⟨le_max_right _ _, hcs, le_trans hcs (le_max_right _ _), hcs⟩
    · by_cases h2 : r.last_read_date = some (today - 1)
      · rw [upd_continued r today h2]
        dsimp only
        refine ⟨le_max_right _ _, by omega, le_trans (by omega) (le_max_right _ _),
          fun r' h => ?_⟩
        injection h with h'; subst h'
        have hpos : (0 : Int) ≤ r.current_streak + 1 := by omega
        exact ⟨le_max_right _ _, hpos, le_trans hpos (le_max_right _ _), hpos⟩
      · rw [upd_reset r today h1 h2]
        refine ⟨le_max_right _ _, by norm_num, le_trans (by norm_num) (le_max_right _ _),
          fun r' h => ?_⟩
        injection h with h'; subst h'
        exact ⟨le_max_right _ _, by norm_num, le_trans (by norm_num) (le_max_right _ _), by
          simp only [storedCurrent]; norm_num⟩

/-- Witness for C5 at a concrete input: a stored row with streak 3, longest
5, last read yesterday (day 9, called on day 10). -/
theorem streak_invariant_witness :
    0 ≤ storedCurrent (some ⟨some 9, 3, 5⟩) ∧
    (update_reading_streak (some ⟨some 9, 3, 5⟩) 10).1.current_streak ≤
      (update_reading_streak (some ⟨some 9, 3, 5⟩) 10).1.longest_streak :=
  ⟨by decide, (streak_invariant (some ⟨some 9, 3, 5⟩) 10 (by decide)).1⟩

/-- C8: calling `update_reading_streak` a second time on the same day is a
no-op: the row persisted by the second call equals the row persisted by the
first call, and the second call reports status `"unchanged"` with the same
current and longest streak as the first. -/
theorem second_call_same_day_noop (r : StreakRow) (today : Int) :
    (update_reading_streak (update_reading_streak (some r) today).2 today).2 =
      (update_reading_streak (some r) today).2 ∧
    (update_reading_streak (update_reading_streak (some r) today).2 today).1.streak_status =
      "unchanged" ∧
    (update_reading_streak (update_reading_streak (some r) today).2 today).1.current_streak =
      (update_reading_streak (some r) today).1.current_streak ∧
    (update_reading_streak (update_reading_streak (some r) today).2 today).1.longest_streak =
      (update_reading_streak (some r) today).1.longest_streak := by
  by_cases h1 : r.last_read_date = some today
  · rw [upd_unchanged r today h1, upd_unchanged _ today rfl]
    refine ⟨?_, rfl, rfl, ?_⟩ <;> simp [Int.max_def] <;> split_ifs <;> try rfl
    all_goals omega
  · by_cases h2 : r.last_read_date = some (today - 1)
    · rw [upd_continued r today h2, upd_unchanged _ today rfl]
      refine ⟨?_, rfl, rfl, ?_⟩ <;> simp [Int.max_def] <;> split_ifs <;> try rfl
      all_goals omega
    · rw [upd_reset r today h1 h2, upd_unchanged _ today rfl]
      refine ⟨?_, rfl, rfl, ?_⟩ <;> simp [Int.max_def] <;> split_ifs <;> try rfl
      all_goals omega

/-- One `update_reading_streak` call on an existing row always stores a row,
and never decreases the longest streak. -/
theorem updStore_step (r : StreakRow) (d : Int) :
    ∃ r', updStore (some r) d = some r' ∧ r.longest_streak ≤ r'.longest_streak := by
  by_cases h1 : r.last_read_date = some d
  · exact ⟨_, by rw [updStore, upd_unchanged r d h1], le_max_left _ _⟩
  · by_cases h2 : r.last_read_date = some (d - 1)
    · exact ⟨_, by rw [updStore, upd_continued r d h2], le_max_left _ _⟩
    · exact ⟨_, by rw [updStore, upd_reset r d h1 h2], le_max_left _ _⟩

/-- A sequence of `update_reading_streak` calls on an existing row stores a
row whose longest streak is at least the starting one. -/
theorem runStreak_step (r : StreakRow) (days : List Int) :
    ∃ r', runStreak (some r) days = some r' ∧ r.longest_streak ≤ r'.longest_streak := by
  induction days generalizing r with
  | nil => exact ⟨r, rfl, le_refl _⟩
  | cons d ds ih =>
    obtain ⟨r1, h1, hle1⟩ := updStore_step r d
    obtain ⟨r2, h2, hle2⟩ := ih r1
    refine ⟨r2, ?_, le_trans hle1 hle2⟩
    simpa [runStreak, h1] using h2

/-- C10: `longest_streak` is monotonically non-decreasing: one
`update_reading_streak` call never decreases the stored longest streak, and
neither does any sequence of calls. -/
theorem longest_streak_monotone (r : StreakRow) (today : Int) (days : List Int) :
    (∀ r', updStore (some r) today = some r' →
      r.longest_streak ≤ r'.longest_streak) ∧
    (∀ r', runStreak (some r) days = some r' →
      r.longest_streak ≤ r'.longest_streak) := by
  constructor
  · intro r' h
    obtain ⟨r1, h1, hle⟩ := updStore_step r today
    rw [h1] at h; injection h with h'; exact h' ▸ hle
  · intro r' h
    obtain ⟨r1, h1, hle⟩ := runStreak_step r days
    rw [h1] at h; injection h with h'; exact h' ▸ hle

/-- Witness for C10 at a concrete input: starting from a fresh row and
reading on days 1 and 2 yields a stored row with longest streak 2 ≥ 0. -/
theorem longest_streak_monotone_witness :
    (⟨none, 0, 0⟩ : StreakRow).longest_streak ≤
      (⟨some 2, 2, 2⟩ : StreakRow).longest_streak :=
  (longest_streak_monotone ⟨none, 0, 0⟩ 1 [1, 2]).2 ⟨some 2, 2, 2⟩ (by decide)

/-! ## Account store (backend/database.py, `register_user`) -/

/-- One row of the `users` table.  `username` and `password` hold the stored
hashes; the streak columns take the schema defaults `NULL, 0, 0` on insert. -/
structure UserRow where
  id : Nat
  username : String
  password : String
  last_read_date : Option Int
  current_streak : Int
  longest_streak : Int
deriving DecidableEq, Repr

/-- Embedding of `register_user(username, password)`.  The hash primitives
(`hash_username`, SHA-256, deterministic; `hash_password`, bcrypt with the
salt folded in) are opaque one-way functions passed as parameters.  The
stored table is a list of rows; `SELECT * FROM users WHERE username = ?`
becomes `find?` on the stored username hash, and a successful `INSERT`
appends a row whose id is the next `AUTOINCREMENT` value.  Returns the
success flag together with the table after the call. -/
def register_user (hash_username hash_password : String → String)
    (store : List UserRow) (username password : String) : Bool × List UserRow :=
  let hashed_username := hash_username username
  let hashed_password := hash_password password
  match store.find? (fun r => r.username == hashed_username) with
  | some _ => (false, store)
  | none =>
      (true,
       store ++ [⟨store.foldl (fun m r => max m r.id) 0 + 1,
                  hashed_username, hashed_password, none, 0, 0⟩])

/-- C2: registering the same username twice in succession, starting from a
store with no row for that username hash, returns `true` the first time and
`false` the second time; the second call performs no mutation, and the store
after the first call contains exactly one row whose username hash matches. -/
theorem register_twice (hash_username hash_password : String → String)
    (store : List UserRow) (u p1 p2 : String)
    (hfresh : ∀ r ∈ store, r.username ≠ hash_username u) :
    (register_user hash_username hash_password store u p1).1 = true ∧
    (register_user hash_username hash_password
        (register_user hash_username hash_password store u p1).2 u p2).1 = false ∧
    (register_user hash_username hash_password
        (register_user hash_username hash_password store u p1).2 u p2).2 =
      (register_user hash_username hash_password store u p1).2 ∧
    ((register_user hash_username hash_password store u p1).2.filter
        (fun r => r.username == hash_username u)).length = 1 := by
  have hnone : store.find? (fun r => r.username == hash_username u) = none := by
    rw [List.find?_eq_none]
    intro r hr
    simpa using hfresh r hr
  have hfilter : store.filter (fun r => r.username == hash_username u) = [] := by
    rw [List.filter_eq_nil_iff]
    intro r hr
    simpa using hfresh r hr
  refine ⟨?_, ?_, ?_, ?_⟩
  · simp [register_user, hnone]
  · simp [register_user, hnone, List.find?_append]
  · simp [register_user, hnone, List.find?_append]
  · simp [register_user, hnone, List.filter_append, hfilter]

/-- Witness for C2 at a concrete input: registering `"alice"` twice in an
empty store with the identity functions standing in for the hashes. -/
theorem register_twice_witness :
    (∀ r ∈ ([] : List UserRow), r.username ≠ "alice") ∧
    (register_user id id [] "alice" "pw1").1 = true ∧
    (register_user id id (register_user id id [] "alice" "pw1").2 "alice" "pw2").1 = false :=
  ⟨by simp,
   (register_twice id id [] "alice" "pw1" "pw2" (by simp)).1,
   (register_twice id id [] "alice" "pw1" "pw2" (by simp)).2.1⟩

/-! ## Favorites ledger (backend/json_storage.py) -/

/-- One saved book object in `favorites.json`.  `current_page` and `learning`
are absent until the page-update or note-save operation first writes them. -/
structure Book where
  title : String
  author : String
  isbn : String
  publication_year : String
  category : String
  current_page : Option Int
  learning : Option String
deriving DecidableEq, Repr

/-- The persisted content of `favorites.json`: a JSON object mapping user-id
strings to lists of books, modelled as an association list in key insertion
order (Python dicts preserve insertion order, and `json.dump` writes it). -/
abbrev Ledger := List (String × List Book)

/-- Python `all_favorites.get(str(user_id))`: the first binding of the key. -/
def ledgerGet (L : Ledger) (uid : String) : Option (List Book) :=
  match L with
  | [] => none
  | (k, v) :: rest => if k = uid then some v else ledgerGet rest uid

/-- Python `all_favorites[str(user_id)] = books`: replace the binding in
place when the key exists, otherwise append it at the end. -/
def ledgerSet (L : Ledger) (uid : String) (books : List Book) : Ledger :=
  match L with
  | [] => [(uid, books)]
  | (k, v) :: rest =>
      if k = uid then (k, books) :: rest else (k, v) :: ledgerSet rest uid books

/-- Embedding of `save_favorite(user_id, book_details)`: if a book with the
same ISBN already exists for that user nothing is written, otherwise the book
is appended to the user's list and the file rewritten. -/
def save_favorite (L : Ledger) (uid : String) (book_details : Book) : Ledger :=
  let favorites := (ledgerGet L uid).getD []
  match favorites.find? (fun b => b.isbn == book_details.isbn) with
  | some _ => L
  | none => ledgerSet L uid (favorites ++ [book_details])

/-- Embedding of `remove_favorites(user_id, selected_isbns)`: when the user
has a list, keep exactly the books whose ISBN is not among the selected ones
and rewrite the file; when the user has no list, do nothing. -/
def remove_favorites (L : Ledger) (uid : String) (selected_isbns : List String) : Ledger :=
  match ledgerGet L uid with
  | none => L
  | some favorites =>
      ledgerSet L uid (favorites.filter (fun b => !(selected_isbns.contains b.isbn)))

/-- The `for ... if book['isbn'] == book_isbn: book['current_page'] = ...;
break` loop of `update_current_page`: overwrite the page of the first book
with the given ISBN, leave every other book untouched. -/
def setCurrentPage : List Book → String → Int → List Book
  | [], _, _ => []
  | b :: rest, book_isbn, current_page =>
      if b.isbn = book_isbn then
        ⟨b.title, b.author, b.isbn, b.publication_year, b.category,
         some current_page, b.learning⟩ :: rest
      else
        b :: setCurrentPage rest book_isbn current_page

/-- Embedding of `update_current_page(user_id, book_isbn, current_page)` in
`json_storage.py`: when the user has a list, overwrite the first matching
book's page (the file is rewritten even when no book matches, with unchanged
content); when the user has no list, do nothing. -/
def update_current_page (L : Ledger) (uid book_isbn : String) (current_page : Int) : Ledger :=
  match ledgerGet L uid with
  | none => L
  | some favorites => ledgerSet L uid (setCurrentPage favorites book_isbn current_page)

/-- Helper for `int_of_str`: reads a non-empty run of decimal digits,
failing on any non-digit character. -/
def digitsToNatAux : List Char → Nat → Option Nat
  | [], acc => some acc
  | c :: cs, acc =>
      if c.isDigit then digitsToNatAux cs (acc * 10 + (c.toNat - 48)) else none

/-- Embedding of Python `int(s)` on form input: an optional sign followed by
at least one decimal digit parses to the signed value, anything else raises
`ValueError`, modelled as `none`. -/
def int_of_str (s : String) : Option Int :=
  match s.data with
  | [] => none
  | '-' :: cs =>
      match cs with
      | [] => none
      | _ => (digitsToNatAux cs 0).map (fun n => -(n : Int))
  | '+' :: cs =>
      match cs with
      | [] => none
      | _ => (digitsToNatAux cs 0).map (fun n => (n : Int))
  | cs => (digitsToNatAux cs 0).map (fun n => (n : Int))

/-- Embedding of the `/update_current_page` route in `app.py`: the form value
is a string; `int(current_page)` raising `ValueError` is answered with the
400 response `"Invalid page number"`, and any parsed integer is passed
straight to the storage layer. -/
def update_current_page_route (L : Ledger) (uid book_isbn current_page_raw : String) :
    Except String Ledger :=
  match int_of_str current_page_raw with
  | none => Except.error "Invalid page number"
  | some current_page => Except.ok (update_current_page L uid book_isbn current_page)

/-! ### Ledger helper lemmas -/

theorem ledgerGet_ledgerSet_self (L : Ledger) (uid : String) (books : List Book) :
    ledgerGet (ledgerSet L uid books) uid = some books := by
  induction L with
  | nil => simp [ledgerGet, ledgerSet]
  | cons kv rest ih =>
    obtain ⟨k, v⟩ := kv
    by_cases h : k = uid <;> simp [ledgerGet, ledgerSet, h, ih]

theorem ledgerGet_ledgerSet_ne (L : Ledger) (uid uid' : String) (books : List Book)
    (h : uid' ≠ uid) :
    ledgerGet (ledgerSet L uid books) uid' = ledgerGet L uid' := by
  induction L with
  | nil => simp [ledgerGet, ledgerSet, Ne.symm h]
  | cons kv rest ih =>
    obtain ⟨k, v⟩ := kv
    by_cases hk : k = uid
    · subst hk
      simp [ledgerGet, ledgerSet, Ne.symm h]
    · by_cases hk' : k = uid' <;> simp [ledgerGet, ledgerSet, hk, hk', h, ih]

theorem ledgerSet_same (L : Ledger) (uid : String) (books : List Book)
    (h : ledgerGet L uid = some books) :
    ledgerSet L uid books = L := by
  induction L with
  | nil => simp [ledgerGet] at h
  | cons kv rest ih =>
    obtain ⟨k, v⟩ := kv
    by_cases hk : k = uid
    · subst hk
      simp [ledgerGet] at h
      simp [ledgerSet, h]
    · simp [ledgerGet, hk] at h
      simp [ledgerSet, hk, ih h]

theorem save_favorite_found (M : Ledger) (uid : String) (book x : Book)
    (hf : ((ledgerGet M uid).getD []).find? (fun b => b.isbn == book.isbn) = some x) :
    save_favorite M uid book = M := by
  simp only [save_favorite, hf]

theorem save_favorite_not_found (M : Ledger) (uid : String) (book : Book)
    (hf : ((ledgerGet M uid).getD []).find? (fun b => b.isbn == book.isbn) = none) :
    save_favorite M uid book = ledgerSet M uid ((ledgerGet M uid).getD [] ++ [book]) := by
  simp only [save_favorite, hf]

/-! ### Ledger theorems -/

/-- C4: `save_favorite` is idempotent under identical ISBN.  Adding a book
whose ISBN already exists in the user's list is a no-op; a fresh ISBN is
appended at the end (also when the user has no list yet); saving the same
book twice equals saving it once; and after adding the same ISBN twice to a
list that did not contain it, exactly one entry with that ISBN exists. -/
theorem save_favorite_idempotent (L : Ledger) (uid : String) (book : Book) :
    (∀ favorites, ledgerGet L uid = some favorites →
       (∃ b ∈ favorites, b.isbn = book.isbn) → save_favorite L uid book = L) ∧
    (∀ favorites, ledgerGet L uid = some favorites →
       (∀ b ∈ favorites, b.isbn ≠ book.isbn) →
       ledgerGet (save_favorite L uid book) uid = some (favorites ++ [book])) ∧
    (ledgerGet L uid = none →
       ledgerGet (save_favorite L uid book) uid = some [book]) ∧
    save_favorite (save_favorite L uid book) uid book = save_favorite L uid book ∧
    ((∀ b ∈ (ledgerGet L uid).getD [], b.isbn ≠ book.isbn) →
       (((ledgerGet (save_favorite (save_favorite L uid book) uid book) uid).getD []).filter
           (fun b => b.isbn == book.isbn)).length = 1) := by
  cases hf : ((ledgerGet L uid).getD []).find? (fun b => b.isbn == book.isbn) with
  | some x =>
    have hsave : save_favorite L uid book = L := save_favorite_found L uid book x hf
    have hidem : save_favorite (save_favorite L uid book) uid book =
        save_favorite L uid book := by
      rw [hsave]; exact hsave
    have hpred : x.isbn = book.isbn := by simpa using List.find?_some hf
    have hxmem : x ∈ (ledgerGet L uid).getD [] := List.mem_of_find?_eq_some hf
    refine ⟨fun _ _ _ => hsave, ?_, ?_, hidem, ?_⟩
    · intro favorites hget hall
      rw [hget, Option.getD_some] at hxmem
      exact absurd hpred (hall x hxmem)
    · intro hget
      rw [hget, Option.getD_none, List.find?_nil] at hf
      cases hf
    · intro hall
      exact absurd hpred (hall x hxmem)
  | none =>
    have hsave : save_favorite L uid book =
        ledgerSet L uid ((ledgerGet L uid).getD [] ++ [book]) :=
      save_favorite_not_found L uid book hf
    have hL1 : ledgerGet (save_favorite L uid book) uid =
        some ((ledgerGet L uid).getD [] ++ [book]) := by
      rw [hsave]; exact ledgerGet_ledgerSet_self L uid _
    have hf2 : ((ledgerGet (save_favorite L uid book) uid).getD []).find?
        (fun b => b.isbn == book.isbn) = some book := by
      rw [hL1, Option.getD_some, List.find?_append, hf]
      simp
    have hidem : save_favorite (save_favorite L uid book) uid book =
        save_favorite L uid book :=
      save_favorite_found (save_favorite L uid book) uid book book hf2
    refine ⟨?_, ?_, ?_, hidem, ?_⟩
    · intro favorites hget ⟨b, hbmem, hbisbn⟩
      rw [hget, Option.getD_some, List.find?_eq_none] at hf
      exact absurd (by simpa using hbisbn) (hf b hbmem)
    · intro favorites hget hall
      rw [hget, Option.getD_some] at hsave
      rw [hsave]
      exact ledgerGet_ledgerSet_self L uid _
    · intro hget
      rw [hget, Option.getD_none] at hsave
      rw [hsave]
      simpa using ledgerGet_ledgerSet_self L uid [book]
    · intro hall
      have hfil : ((ledgerGet L uid).getD []).filter
          (fun b => b.isbn == book.isbn) = [] := by
        rw [List.filter_eq_nil_iff]
        intro b hbmem
        simpa using hall b hbmem
      rw [hidem, hL1, Option.getD_some, List.filter_append, hfil]
      simp

/-- Witness for C4 at a concrete input: adding the same book twice to an
empty ledger leaves exactly one entry with its ISBN. -/
theorem save_favorite_idempotent_witness :
    (∀ b ∈ (ledgerGet [] "1").getD [], b.isbn ≠ "123") ∧
    (((ledgerGet (save_favorite (save_favorite [] "1"
          ⟨"T", "A", "123", "2001", "Uncategorized", none, none⟩) "1"
          ⟨"T", "A", "123", "2001", "Uncategorized", none, none⟩) "1").getD []).filter
       (fun b => b.isbn == "123")).length = 1 :=
  ⟨by simp [ledgerGet],
   (save_favorite_idempotent [] "1"
      ⟨"T", "A", "123", "2001", "Uncategorized", none, none⟩).2.2.2.2
     (by simp [ledgerGet])⟩

/-- C6: `remove_favorites` deletes exactly the entries whose ISBN is in the
selected set: the user's list becomes its sublist of books whose ISBN is not
selected (membership characterised below), other users' lists are untouched,
and when no entry matches — in particular when the set is disjoint from the
user's ISBNs — the ledger is left unchanged. -/
theorem remove_favorites_spec (L : Ledger) (uid : String) (isbns : List String) :
    (∀ favorites, ledgerGet L uid = some favorites →
       ledgerGet (remove_favorites L uid isbns) uid =
         some (favorites.filter (fun b => !(isbns.contains b.isbn)))) ∧
    (∀ uid', uid' ≠ uid →
       ledgerGet (remove_favorites L uid isbns) uid' = ledgerGet L uid') ∧
    (∀ favorites, ledgerGet L uid = some favorites →
       (favorites.filter (fun b => !(isbns.contains b.isbn))).Sublist favorites ∧
       ∀ b, b ∈ favorites.filter (fun b => !(isbns.contains b.isbn)) ↔
         b ∈ favorites ∧ ¬ b.isbn ∈ isbns) ∧
    ((∀ b ∈ (ledgerGet L uid).getD [], ¬ b.isbn ∈ isbns) →
       remove_favorites L uid isbns = L) := by
  refine ⟨?_, ?_, ?_, ?_⟩
  · intro favorites hget
    simp only [remove_favorites, hget]
    exact ledgerGet_ledgerSet_self L uid _
  · intro uid' hne
    cases hget : ledgerGet L uid with
    | none => simp only [remove_favorites, hget]
    | some favorites =>
      simp only [remove_favorites, hget]
      exact ledgerGet_ledgerSet_ne L uid uid' _ hne
  · intro favorites hget
    refine ⟨List.filter_sublist favorites, fun b => ?_⟩
    simp [List.mem_filter]
  · intro hall
    cases hget : ledgerGet L uid with
    | none => simp only [remove_favorites, hget]
    | some favorites =>
      rw [hget, Option.getD_some] at hall
      have : favorites.filter (fun b => !(isbns.contains b.isbn)) = favorites := by
        rw [List.filter_eq_self]
        intro b hbmem
        simpa using hall b hbmem
      simp only [remove_favorites, hget, this]
      exact ledgerSet_same L uid favorites hget

/-- Witness for C6 at a concrete input: removing an ISBN set disjoint from
the user's single entry leaves the ledger unchanged. -/
theorem remove_favorites_spec_witness :
    remove_favorites [("1", [⟨"T", "A", "123", "2001", "Uncategorized", none, none⟩])]
        "1" ["999"] =
      [("1", [⟨"T", "A", "123", "2001", "Uncategorized", none, none⟩])] :=
  (remove_favorites_spec
      [("1", [⟨"T", "A", "123", "2001", "Uncategorized", none, none⟩])] "1" ["999"]).2.2.2
    (by simp [ledgerGet])

/-- C3 counterexample: the route validates only that the form value parses as
an integer, so `set_page` with `-1` on an existing ISBN is accepted (no
error) and the entry's page field is overwritten with `-1`, leaving the
ledger changed. -/
theorem set_page_negative_accepted :
    update_current_page_route
        [("1", [⟨"T", "A", "X", "2000", "Uncategorized", none, none⟩])] "1" "X" "-1" =
      Except.ok [("1", [⟨"T", "A", "X", "2000", "Uncategorized", some (-1), none⟩])] ∧
    update_current_page_route
        [("1", [⟨"T", "A", "X", "2000", "Uncategorized", none, none⟩])] "1" "X" "-1" ≠
      Except.error "Invalid page number" ∧
    update_current_page_route
        [("1", [⟨"T", "A", "X", "2000", "Uncategorized", none, none⟩])] "1" "X" "-1" ≠
      Except.ok [("1", [⟨"T", "A", "X", "2000", "Uncategorized", none, none⟩])] := by
  refine ⟨by decide, by decide, by decide⟩

/-- C3 (amended): `set_page` rejects the request as an error exactly when the
form value does not parse as an integer (no mutation happens then); every
parsed integer — negative values included — is accepted and handed to the
storage layer, which overwrites only the first matching entry's page field,
leaving sibling entries and other users' lists untouched. -/
theorem set_page_spec (L : Ledger) (uid book_isbn raw : String) :
    (int_of_str raw = none →
       update_current_page_route L uid book_isbn raw =
         Except.error "Invalid page number") ∧
    (∀ p : Int, int_of_str raw = some p →
       update_current_page_route L uid book_isbn raw =
         Except.ok (update_current_page L uid book_isbn p)) ∧
    (∀ (p : Int) (uid' : String), uid' ≠ uid →
       ledgerGet (update_current_page L uid book_isbn p) uid' = ledgerGet L uid') ∧
    (∀ (p : Int) (favorites : List Book), ledgerGet L uid = some favorites →
       ledgerGet (update_current_page L uid book_isbn p) uid =
         some (setCurrentPage favorites book_isbn p)) ∧
    (∀ (p : Int) (favorites : List Book), (∀ b ∈ favorites, b.isbn ≠ book_isbn) →
       setCurrentPage favorites book_isbn p = favorites) ∧
    (∀ (p : Int) (pre : List Book) (b : Book) (post : List Book),
       (∀ x ∈ pre, x.isbn ≠ book_isbn) → b.isbn = book_isbn →
       setCurrentPage (pre ++ b :: post) book_isbn p =
         pre ++ ⟨b.title, b.author, b.isbn, b.publication_year, b.category,
                 some p, b.learning⟩ :: post) := by
  refine ⟨?_, ?_, ?_, ?_, ?_, ?_⟩
  · intro hparse
    simp only [update_current_page_route, hparse]
  · intro p hparse
    simp only [update_current_page_route, hparse]
  · intro p uid' hne
    cases hget : ledgerGet L uid with
    | none => simp only [update_current_page, hget]
    | some favorites =>
      simp only [update_current_page, hget]
      exact ledgerGet_ledgerSet_ne L uid uid' _ hne
  · intro p favorites hget
    simp only [update_current_page, hget]
    exact ledgerGet_ledgerSet_self L uid _
  · intro p favorites hall
    induction favorites with
    | nil => rfl
    | cons b rest ih =>
      have hb : b.isbn ≠ book_isbn := hall b (List.mem_cons_self b rest)
      simp [setCurrentPage, hb, ih (fun x hx => hall x (List.mem_cons_of_mem b hx))]
  · intro p pre b post hpre hb
    induction pre with
    | nil => simp [setCurrentPage, hb]
    | cons x rest ih =>
      have hx : x.isbn ≠ book_isbn := hpre x (List.mem_cons_self x rest)
      simp [setCurrentPage, hx, ih (fun y hy => hpre y (List.mem_cons_of_mem x hy))]

/-- Witness for C3 (amended) at a concrete input: a valid page `7` on the
first of two books updates only that book, leaving its sibling untouched. -/
theorem set_page_spec_witness :
    int_of_str "7" = some 7 ∧
    setCurrentPage
        [⟨"T", "A", "X", "2000", "Uncategorized", none, none⟩,
         ⟨"S", "B", "Y", "2001", "Uncategorized", none, none⟩] "X" 7 =
      [⟨"T", "A", "X", "2000", "Uncategorized", some 7, none⟩,
       ⟨"S", "B", "Y", "2001", "Uncategorized", none, none⟩] :=
  ⟨by decide,
   (set_page_spec [] "1" "X" "7").2.2.2.2.2 7 []
     ⟨"T", "A", "X", "2000", "Uncategorized", none, none⟩
     [⟨"S", "B", "Y", "2001", "Uncategorized", none, none⟩]
     (by simp) (by decide)⟩

/-! ## Catalog lookup (backend/google_books_api.py, `search_books`) -/

/-- One entry of a volume's `industryIdentifiers` array; the `identifier`
key may be absent. -/
structure IndustryIdentifier where
  identifier : Option String
deriving DecidableEq, Repr

/-- The `volumeInfo` object of one search result, every key optional. -/
structure VolumeInfo where
  title : Option String
  authors : Option (List String)
  industryIdentifiers : Option (List IndustryIdentifier)
  publishedDate : Option String
  description : Option String
deriving DecidableEq, Repr

/-- One entry of the decoded response's `items` array. -/
structure Item where
  volumeInfo : Option VolumeInfo
deriving DecidableEq, Repr

/-- The decoded JSON body of a Google Books response. -/
structure ApiResponse where
  items : Option (List Item)
deriving DecidableEq, Repr

/-- One dictionary appended to `books` by the loop in `search_books`. -/
structure BookSummary where
  title : String
  author : String
  isbn : String
  publication_year : String
  description : String
  category : String
deriving DecidableEq, Repr

/-- The body of the `for item in data.get('items', [])[:10]` loop: each
`.get(key, default)` becomes `Option.getD`, but the subscriptions
`[0]` and `['identifier']` on the `industryIdentifiers` value are bare, so a
present-but-empty identifier list raises `IndexError` and a first identifier
without an `identifier` key raises `KeyError`; both are uncaught. -/
def book_details_of_item (field_of_interest : String) (item : Item) :
    Except String BookSummary :=
  let book_info := item.volumeInfo.getD ⟨none, none, none, none, none⟩
  match book_info.industryIdentifiers.getD [⟨some "N/A"⟩] with
  | [] => Except.error "list index out of range"
  | first :: _ =>
      match first.identifier with
      | none => Except.error "KeyError: identifier"
      | some isbn =>
          Except.ok ⟨book_info.title.getD "N/A",
                     String.intercalate ", " (book_info.authors.getD ["N/A"]),
                     isbn,
                     book_info.publishedDate.getD "N/A",
                     book_info.description.getD "No description available",
                     field_of_interest⟩

/-- The `books.append(...)` loop of `search_books`: items are processed in
order and the first uncaught error aborts the whole call. -/
def collect_books (field_of_interest : String) : List Item → Except String (List BookSummary)
  | [] => Except.ok []
  | item :: rest =>
      match book_details_of_item field_of_interest item with
      | Except.error e => Except.error e
      | Except.ok b =>
          match collect_books field_of_interest rest with
          | Except.error e => Except.error e
          | Except.ok bs => Except.ok (b :: bs)

/-- Embedding of `search_books(field_of_interest, specific_topic)`.  The
transport layer is abstracted into the argument `response`: `none` stands for
any `requests.exceptions.RequestException` (network fault or JSON decode
failure), which the `try/except` turns into an empty result list; a decoded
body is processed at most 10 items deep. -/
def search_books (field_of_interest : String) (response : Option ApiResponse) :
    Except String (List BookSummary) :=
  match response with
  | none => Except.ok []
  | some data => collect_books field_of_interest ((data.items.getD []).take 10)

/-- `collect_books` returns one summary per processed item when it succeeds. -/
theorem collect_books_length (field_of_interest : String) :
    ∀ (items : List Item) (l : List BookSummary),
      collect_books field_of_interest items = Except.ok l → l.length = items.length := by
  intro items
  induction items with
  | nil =>
    intro l h
    simp only [collect_books] at h
    injection h with h'
    simp [← h']
  | cons item rest ih =>
    intro l h
    simp only [collect_books] at h
    cases hd : book_details_of_item field_of_interest item with
    | error e => rw [hd] at h; cases h
    | ok b =>
      rw [hd] at h
      cases hr : collect_books field_of_interest rest with
      | error e => rw [hr] at h; cases h
      | ok bs =>
        rw [hr] at h
        injection h with h'
        simp [← h', ih bs hr]

/-- C7 counterexample: a transport-successful, well-decoded response whose
single item carries a present-but-empty `industryIdentifiers` array makes
`search_books` raise an uncaught `IndexError` instead of returning a list —
in particular it does not yield the empty list. -/
theorem search_books_exception :
    search_books "Science" (some ⟨some [⟨some ⟨none, none, some [], none, none⟩⟩]⟩) =
      Except.error "list index out of range" ∧
    search_books "Science" (some ⟨some [⟨some ⟨none, none, some [], none, none⟩⟩]⟩) ≠
      Except.ok [] := by
  refine ⟨by decide, by decide⟩

/-- C7 (amended): any transport or JSON-decode failure yields an empty list,
and whenever the call returns a list at all it holds at most 10 summaries;
however, a successfully decoded response whose first identifier array is
present but empty (or whose first identifier lacks the `identifier` key)
raises an uncaught exception to the caller. -/
theorem search_books_spec (field_of_interest : String) (response : Option ApiResponse) :
    (response = none → search_books field_of_interest response = Except.ok []) ∧
    (∀ l, search_books field_of_interest response = Except.ok l → l.length ≤ 10) := by
  constructor
  · intro h
    rw [h]
    rfl
  · intro l h
    cases response with
    | none =>
      simp only [search_books] at h
      injection h with h'
      simp [← h']
    | some data =>
      simp only [search_books] at h
      have := collect_books_length field_of_interest _ l h
      rw [this]
      exact le_trans (List.length_take_le 10 _) (le_refl 10)

/-- Witness for C7 (amended) at concrete inputs: a transport failure yields
the empty list, and a clean one-item response yields one summary, below the
cap of 10. -/
theorem search_books_spec_witness :
    search_books "Science" none = Except.ok [] ∧
    ([⟨"T", "A", "123", "2001", "D", "Science"⟩] : List BookSummary).length ≤ 10 :=
  ⟨(search_books_spec "Science" none).1 rfl,
   (search_books_spec "Science"
       (some ⟨some [⟨some ⟨some "T", some ["A"], some [⟨some "123"⟩], some "2001", some "D"⟩⟩]⟩)).2
     [⟨"T", "A", "123", "2001", "D", "Science"⟩] (by decide)⟩

end BookApp
